import Mathlib

/-!
Verification development for the spatial epidemic propagation engine of this
repository (src/main.py).  The Python code is shallowly embedded: Python
floats become rationals, the mutable node list becomes explicit state
passing, the shared `random.Random` generator becomes an abstract generator
record threaded through every consumer, and the fatal configuration check
becomes an `Except` value.  All definitions are translated directly from the
source; the few places where something outside src/ is involved (the
`map_polygons.LAND_POLYGONS` table) are parametrized and documented at the
definition site.
-/

/-- Node dataclass (src/main.py lines 325-341): a single device in the
network.  Field order and names follow the source; `state` defaults to
"secure". -/
structure Node where
  id : Nat
  x : ℚ
  y : ℚ
  latitude : ℚ
  longitude : ℚ
  region : String
  location : String
  device_type : String
  connectivity : List String
  label : String
  summary : String
  state : String := "secure"
deriving DecidableEq

instance : Inhabited Node :=
  ⟨⟨0, 0, 0, 0, 0, "", "", "", [], "", "", "secure"⟩⟩

/-- Connection dataclass (src/main.py lines 343-348). -/
structure Connection where
  source : Nat
  target : Nat
  medium : String
  description : String
deriving DecidableEq

/-- ScenarioNodeSpec dataclass (src/main.py lines 50-61). -/
structure ScenarioNodeSpec where
  label : String
  device_type : String
  latitude : ℚ
  longitude : ℚ
  region : String
  location : String
  role : String
  connectivity : List String
  lat_jitter : ℚ := 0.35
  lon_jitter : ℚ := 0.45
deriving DecidableEq

/-- ScenarioConnectionSpec dataclass (src/main.py lines 64-69). -/
structure ScenarioConnectionSpec where
  source : Nat
  target : Nat
  medium : String
  description : String
deriving DecidableEq

/-- Projection dataclass (src/main.py lines 452-470); only `to_screen` is
used by node generation. -/
structure Projection where
  map_width : ℚ
  map_height : ℚ
  scale : ℚ
  offset_x : ℚ
  offset_y : ℚ
deriving DecidableEq

/-- Projection.to_screen (src/main.py lines 460-463). -/
def Projection.to_screen (p : Projection) (lon lat : ℚ) : ℚ × ℚ :=
  ((lon + 180) / 360 * p.map_width * p.scale + p.offset_x,
   (1 - (lat + 90) / 180) * p.map_height * p.scale + p.offset_y)

/-- CONNECTION_RADIUS configuration constant (src/main.py line 34). -/
def CONNECTION_RADIUS : ℚ := 120

/-- MAX_INFECTION_ATTEMPTS configuration constant (src/main.py line 36). -/
def MAX_INFECTION_ATTEMPTS : Nat := 4

/-- NODE_COUNT configuration constant (src/main.py line 33). -/
def NODE_COUNT : Nat := 10

/-- Abstract stateful pseudo-random generator standing for `random.Random`:
each operation consumes the state `σ` and returns the drawn value together
with the advanced state, exactly as the Python object advances its Mersenne
Twister state.  Theorems quantify over the generator; witnesses instantiate
it concretely. -/
structure RandomStream (σ : Type) where
  sample : σ → List Nat → Nat → List Nat × σ
  random : σ → ℚ × σ
  uniform : σ → ℚ → ℚ → ℚ × σ
  randrange : σ → Nat → Nat × σ

/-- Contract satisfied by Python `random.Random.sample`: every drawn element
is a member of the supplied population.  Stated as a hypothesis on the
abstract generator where a claim needs it. -/
def SampleSubset {σ : Type} (g : RandomStream σ) : Prop :=
  ∀ (s : σ) (l : List Nat) (k : Nat), ∀ x ∈ (g.sample s l k).1, x ∈ l

/-- infection_probability (src/main.py lines 557-581), translated literally:
base 0.05, +0.12 for identical device types, else +0.05 when both types are
light ({phone, iot}) or both heavy ({computer, server}), plus a distance
bonus 0.4 * max(0, 1 - distance / CONNECTION_RADIUS), capped by
min(0.95, ...). -/
def infection_probability (source target : Node) (distance : ℚ) : ℚ :=
  let base : ℚ := 0.05
  let base :=
    if source.device_type = target.device_type then
      base + 0.12
    else
      let light_devices : List String := ["phone", "iot"]
      let heavy_devices : List String := ["computer", "server"]
      if (source.device_type ∈ light_devices ∧ target.device_type ∈ light_devices)
          ∨ (source.device_type ∈ heavy_devices ∧ target.device_type ∈ heavy_devices) then
        base + 0.05
      else
        base
  let distance_factor := max 0 (1 - distance / CONNECTION_RADIUS)
  let base := base + 0.4 * distance_factor
  min 0.95 base

/-- Distance-independent part of infection_probability: the 0.05 base plus
the device-category bonus of src/main.py lines 559-575. -/
def category_base (source target : Node) : ℚ :=
  if source.device_type = target.device_type then
    0.05 + 0.12
  else
    if (source.device_type ∈ (["phone", "iot"] : List String)
          ∧ target.device_type ∈ (["phone", "iot"] : List String))
        ∨ (source.device_type ∈ (["computer", "server"] : List String)
          ∧ target.device_type ∈ (["computer", "server"] : List String)) then
      0.05 + 0.05
    else
      0.05

/-- infection_probability without the final min(0.95, ...) cap of
src/main.py line 581. -/
def infection_probability_uncapped (source target : Node) (distance : ℚ) : ℚ :=
  category_base source target + 0.4 * max 0 (1 - distance / CONNECTION_RADIUS)

lemma infection_probability_eq (source target : Node) (distance : ℚ) :
    infection_probability source target distance =
      min 0.95 (infection_probability_uncapped source target distance) := by
  simp only [infection_probability, infection_probability_uncapped, category_base]

lemma category_base_lower (source target : Node) :
    (0.05 : ℚ) ≤ category_base source target := by
  unfold category_base
  split
  · norm_num
  · split <;> norm_num

lemma category_base_upper (source target : Node) :
    category_base source target ≤ (0.17 : ℚ) := by
  unfold category_base
  split
  · norm_num
  · split <;> norm_num

/-- C2: for every pair of nodes with device types drawn from
{phone, computer, iot, server} and every distance 0 ≤ d ≤ CONNECTION_RADIUS,
infection_probability returns a value in [0.05, 0.95]. -/
theorem infection_probability_bounds (source target : Node) (d : ℚ)
    (_hs : source.device_type ∈ (["phone", "computer", "iot", "server"] : List String))
    (_ht : target.device_type ∈ (["phone", "computer", "iot", "server"] : List String))
    (h0 : 0 ≤ d) (_hR : d ≤ CONNECTION_RADIUS) :
    0.05 ≤ infection_probability source target d ∧
      infection_probability source target d ≤ 0.95 := by
  rw [infection_probability_eq]
  refine ⟨le_min (by norm_num) ?_, min_le_left _ _⟩
  have h1 := category_base_lower source target
  have h2 : (0 : ℚ) ≤ 0.4 * max 0 (1 - d / CONNECTION_RADIUS) :=
    mul_nonneg (by norm_num) (le_max_left 0 _)
  unfold infection_probability_uncapped
  linarith

/-- Concrete phone node used by witnesses; starts infected. -/
def sample_phone_node : Node :=
  ⟨0, 3, 4, 40, -3, "Spain", "Madrid", "phone", ["LTE"], "A", "", "infected"⟩

/-- Concrete phone node used by witnesses; carries the reserved
"vulnerable" state. -/
def sample_vulnerable_node : Node :=
  ⟨1, 3, 4, 41, 2, "Spain", "Barcelona", "phone", ["Wi-Fi"], "B", "", "vulnerable"⟩

theorem infection_probability_bounds_witness :
    sample_phone_node.device_type ∈ (["phone", "computer", "iot", "server"] : List String) ∧
    sample_vulnerable_node.device_type ∈ (["phone", "computer", "iot", "server"] : List String) ∧
    (0 : ℚ) ≤ 60 ∧ (60 : ℚ) ≤ CONNECTION_RADIUS ∧
    (0.05 ≤ infection_probability sample_phone_node sample_vulnerable_node 60 ∧
      infection_probability sample_phone_node sample_vulnerable_node 60 ≤ 0.95) :=
  ⟨by decide, by decide, by norm_num, by norm_num [CONNECTION_RADIUS],
    infection_probability_bounds sample_phone_node sample_vulnerable_node 60
      (by decide) (by decide) (by norm_num) (by norm_num [CONNECTION_RADIUS])⟩

/-- C6: for fixed nodes, infection_probability is non-increasing in the
distance over 0 ≤ d1 ≤ d2, and for distances at or beyond
CONNECTION_RADIUS it equals the distance-independent category_base (the
0.05 base plus the category bonus, with zero distance bonus). -/
theorem infection_probability_antitone (source target : Node) (d1 d2 : ℚ)
    (_h0 : 0 ≤ d1) (h12 : d1 ≤ d2) :
    infection_probability source target d2 ≤ infection_probability source target d1 ∧
      (CONNECTION_RADIUS ≤ d1 →
        infection_probability source target d1 = category_base source target) := by
  have hRpos : (0 : ℚ) < CONNECTION_RADIUS := by norm_num [CONNECTION_RADIUS]
  constructor
  · rw [infection_probability_eq, infection_probability_eq]
    refine min_le_min (le_refl _) ?_
    unfold infection_probability_uncapped
    have hdiv : d1 / CONNECTION_RADIUS ≤ d2 / CONNECTION_RADIUS :=
      (div_le_div_right hRpos).mpr h12
    have hmax : max 0 (1 - d2 / CONNECTION_RADIUS) ≤ max 0 (1 - d1 / CONNECTION_RADIUS) :=
      max_le_max (le_refl 0) (by linarith)
    linarith
  · intro hR
    rw [infection_probability_eq]
    unfold infection_probability_uncapped
    have hone : (1 : ℚ) ≤ d1 / CONNECTION_RADIUS := by
      rw [le_div_iff hRpos]
      linarith
    have hmax : max 0 (1 - d1 / CONNECTION_RADIUS) = 0 := max_eq_left (by linarith)
    rw [hmax, mul_zero, add_zero]
    exact min_eq_right (le_trans (category_base_upper source target) (by norm_num))

theorem infection_probability_antitone_witness :
    (0 : ℚ) ≤ 130 ∧ (130 : ℚ) ≤ 150 ∧
    (infection_probability sample_phone_node sample_vulnerable_node 150 ≤
        infection_probability sample_phone_node sample_vulnerable_node 130 ∧
      (CONNECTION_RADIUS ≤ 130 →
        infection_probability sample_phone_node sample_vulnerable_node 130 =
          category_base sample_phone_node sample_vulnerable_node)) :=
  ⟨by norm_num, by norm_num,
    infection_probability_antitone sample_phone_node sample_vulnerable_node 130 150
      (by norm_num) (by norm_num)⟩

/-- C10: for all device type combinations and every distance d ≥ 0, the
probability is at most 0.57 = 0.05 + 0.12 + 0.4, strictly below the 0.95
cap, so the min(0.95, ...) clamp never changes the result. -/
theorem infection_probability_cap_unreachable (source target : Node) (d : ℚ)
    (_hs : source.device_type ∈ (["phone", "computer", "iot", "server"] : List String))
    (_ht : target.device_type ∈ (["phone", "computer", "iot", "server"] : List String))
    (h0 : 0 ≤ d) :
    infection_probability source target d ≤ 0.57 ∧
      infection_probability source target d < 0.95 ∧
      infection_probability source target d =
        infection_probability_uncapped source target d := by
  have hRpos : (0 : ℚ) < CONNECTION_RADIUS := by norm_num [CONNECTION_RADIUS]
  have hm0 : (0 : ℚ) ≤ max 0 (1 - d / CONNECTION_RADIUS) := le_max_left _ _
  have hm1 : max 0 (1 - d / CONNECTION_RADIUS) ≤ 1 := by
    refine max_le (by norm_num) ?_
    have : (0 : ℚ) ≤ d / CONNECTION_RADIUS := div_nonneg h0 (le_of_lt hRpos)
    linarith
  have hcb := category_base_upper source target
  have huncap : infection_probability_uncapped source target d ≤ 0.57 := by
    unfold infection_probability_uncapped
    linarith
  have heq : infection_probability source target d =
      infection_probability_uncapped source target d := by
    rw [infection_probability_eq]
    exact min_eq_right (le_trans huncap (by norm_num))
  exact ⟨heq ▸ huncap, heq ▸ lt_of_le_of_lt huncap (by norm_num), heq⟩

theorem infection_probability_cap_unreachable_witness :
    sample_phone_node.device_type ∈ (["phone", "computer", "iot", "server"] : List String) ∧
    sample_vulnerable_node.device_type ∈ (["phone", "computer", "iot", "server"] : List String) ∧
    (0 : ℚ) ≤ 0 ∧
    (infection_probability sample_phone_node sample_vulnerable_node 0 ≤ 0.57 ∧
      infection_probability sample_phone_node sample_vulnerable_node 0 < 0.95 ∧
      infection_probability sample_phone_node sample_vulnerable_node 0 =
        infection_probability_uncapped sample_phone_node sample_vulnerable_node 0) :=
  ⟨by decide, by decide, le_refl 0,
    infection_probability_cap_unreachable sample_phone_node sample_vulnerable_node 0
      (by decide) (by decide) (le_refl 0)⟩

/-- Model of `math.hypot` over the rationals, used by update_infections
(src/main.py line 601).  `Rat.sqrt` is the rational square-root
approximation (exact on perfect squares); no claim in this development
depends on the numeric value of a distance, only on how update_infections
feeds it into infection_probability and compares the resulting chance with
an abstract random draw. -/
def hypot (a b : ℚ) : ℚ :=
  Rat.sqrt (a * a + b * b)

/-- Inner target loop of update_infections (src/main.py lines 597-604):
for each sampled target index, skip it when it is already infected,
otherwise draw one uniform trial and record the index when the trial is
below the transmission probability.  States are read from the tick-start
`nodes` list throughout. -/
def try_targets {σ : Type} (g : RandomStream σ) (node : Node) (nodes : List Node) :
    List Nat → σ → List Nat × σ
  | [], s => ([], s)
  | target_idx :: rest, s =>
    let target := nodes.getD target_idx default
    if target.state = "infected" then
      try_targets g node nodes rest s
    else
      let distance := hypot (node.x - target.x) (node.y - target.y)
      let chance := infection_probability node target distance
      let r := g.random s
      let found := try_targets g node nodes rest r.2
      (if r.1 < chance then target_idx :: found.1 else found.1, found.2)

/-- Outer scan of update_infections (src/main.py lines 587-604): walk the
node list with its enumeration index, and for every node that is infected
at tick start and has a non-empty neighbor list, sample
min(neighbor_count, MAX_INFECTION_ATTEMPTS) neighbors and run the target
loop.  `nodes` is the full tick-start list; the second list argument is the
suffix still to be scanned, starting at index `idx`. -/
def scan_infected {σ : Type} (g : RandomStream σ) (nodes : List Node)
    (neighbors : List (List Nat)) : Nat → List Node → σ → List Nat × σ
  | _, [], s => ([], s)
  | idx, node :: rest, s =>
    if node.state ≠ "infected" then
      scan_infected g nodes neighbors (idx + 1) rest s
    else
      let neighbor_indices := neighbors.getD idx []
      if neighbor_indices = [] then
        scan_infected g nodes neighbors (idx + 1) rest s
      else
        let attempts := min neighbor_indices.length MAX_INFECTION_ATTEMPTS
        let targets := g.sample s neighbor_indices attempts
        let newly := try_targets g node nodes targets.1 targets.2
        let more := scan_infected g nodes neighbors (idx + 1) rest newly.2
        (newly.1 ++ more.1, more.2)

/-- Final commit loop of update_infections (src/main.py lines 606-607):
every node whose position index was recorded as newly infected has its
state set to "infected"; all other nodes are untouched.  Python applies the
marking over `set(newly_infected)`; marking a position once or several
times yields the same list, so list membership is the faithful rendering. -/
def mark_infected (newly : List Nat) : Nat → List Node → List Node
  | _, [] => []
  | idx, node :: rest =>
    (if idx ∈ newly then { node with state := "infected" } else node) ::
      mark_infected newly (idx + 1) rest

/-- update_infections (src/main.py lines 584-607): scan the tick-start
state, collect pending infections, then commit them.  The mutable update of
the Python version becomes a returned list; the advanced generator state is
returned alongside. -/
def update_infections {σ : Type} (g : RandomStream σ) (nodes : List Node)
    (neighbors : List (List Nat)) (s : σ) : List Node × σ :=
  let scanned := scan_infected g nodes neighbors 0 nodes s
  (mark_infected scanned.1 0 nodes, scanned.2)

/-- Iterated ticks: the external scheduler of src/main.py lines 992-994
calls update_infections repeatedly on the same node list and neighbor
structure, threading the shared generator. -/
def run_ticks {σ : Type} (g : RandomStream σ) (neighbors : List (List Nat)) :
    Nat → List Node × σ → List Node × σ
  | 0, p => p
  | k + 1, p => run_ticks g neighbors k (update_infections g p.1 neighbors p.2)

lemma mark_infected_length (newly : List Nat) :
    ∀ (start : Nat) (l : List Node), (mark_infected newly start l).length = l.length := by
  intro start l
  induction l generalizing start with
  | nil => rfl
  | cons node rest ih => simp [mark_infected, ih]

lemma mark_infected_getD (newly : List Nat) :
    ∀ (l : List Node) (start i : Nat),
      (mark_infected newly start l).getD i default =
        if start + i ∈ newly ∧ i < l.length then
          { l.getD i default with state := "infected" }
        else
          l.getD i default := by
  intro l
  induction l with
  | nil => intro start i; simp [mark_infected]
  | cons node rest ih =>
    intro start i
    cases i with
    | zero => simp [mark_infected]
    | succ j =>
      have harith : start + (j + 1) = (start + 1) + j := by omega
      simp only [mark_infected, List.getD_cons_succ, List.length_cons, harith, ih rest.length]
      rw [ih (start + 1) j]
      simp only [Nat.succ_lt_succ_iff]

lemma try_targets_mem {σ : Type} (g : RandomStream σ) (node : Node) (nodes : List Node) :
    ∀ (ts : List Nat) (s : σ) (i : Nat), i ∈ (try_targets g node nodes ts s).1 →
      i ∈ ts ∧ (nodes.getD i default).state ≠ "infected" := by
  intro ts
  induction ts with
  | nil => intro s i hi; simp [try_targets] at hi
  | cons t rest ih =>
    intro s i hi
    by_cases hst : (nodes.getD t default).state = "infected"
    · have hi' : i ∈ (try_targets g node nodes rest s).1 := by
        simp only [try_targets, if_pos hst] at hi
        exact hi
      have := ih s i hi'
      exact ⟨List.mem_cons_of_mem _ this.1, this.2⟩
    · simp only [try_targets, hst, if_false, ite_false] at hi
      by_cases htrial :
          (g.random s).1 <
            infection_probability node (nodes.getD t default)
              (hypot (node.x - (nodes.getD t default).x) (node.y - (nodes.getD t default).y))
      · rw [if_pos htrial] at hi
        rcases List.mem_cons.mp hi with rfl | hi'
        · exact ⟨List.mem_cons_self _ _, hst⟩
        · have := ih (g.random s).2 i hi'
          exact ⟨List.mem_cons_of_mem _ this.1, this.2⟩
      · rw [if_neg htrial] at hi
        have := ih (g.random s).2 i hi
        exact ⟨List.mem_cons_of_mem _ this.1, this.2⟩

lemma scan_infected_mem {σ : Type} {g : RandomStream σ} (hg : SampleSubset g)
    (nodes : List Node) (neighbors : List (List Nat)) :
    ∀ (l : List Node) (start : Nat) (s : σ),
      (∀ k, l[k]? = nodes[start + k]?) →
      ∀ i ∈ (scan_infected g nodes neighbors start l s).1,
        (nodes.getD i default).state ≠ "infected" ∧
        ∃ j, j < nodes.length ∧ (nodes.getD j default).state = "infected" ∧
          i ∈ neighbors.getD j [] := by
  intro l
  induction l with
  | nil => intro start s _ i hi; simp [scan_infected] at hi
  | cons node rest ih =>
    intro start s hrel i hi
    have hrel0 : nodes[start]? = some node := by
      have h := hrel 0
      simpa using h.symm
    have hstart_lt : start < nodes.length := by
      rcases List.getElem?_eq_some.mp hrel0 with ⟨h, _⟩
      exact h
    have hgetD : nodes.getD start default = node := by
      rw [List.getD_eq_getElem?_getD, hrel0]
      rfl
    have hrel' : ∀ k, rest[k]? = nodes[(start + 1) + k]? := by
      intro k
      have h := hrel (k + 1)
      have harith : start + (k + 1) = (start + 1) + k := by omega
      rw [harith] at h
      simpa using h
    by_cases hst : node.state = "infected"
    · by_cases hnb : neighbors.getD start [] = []
      · have hi' : i ∈ (scan_infected g nodes neighbors (start + 1) rest s).1 := by
          simp only [scan_infected, if_neg (not_not_intro hst), if_pos hnb] at hi
          exact hi
        exact ih (start + 1) s hrel' i hi'
      · simp only [scan_infected, if_neg (not_not_intro hst), if_neg hnb] at hi
        rcases List.mem_append.mp hi with hleft | hright
        · have htm := try_targets_mem g node nodes _ _ i hleft
          have hin : i ∈ neighbors.getD start [] := hg _ _ _ i htm.1
          exact ⟨htm.2, start, hstart_lt, by rw [hgetD]; exact hst, hin⟩
        · exact ih (start + 1) _ hrel' i hright
    · have hi' : i ∈ (scan_infected g nodes neighbors (start + 1) rest s).1 := by
        simp only [scan_infected, if_pos hst] at hi
        exact hi
      exact ih (start + 1) s hrel' i hi'

lemma update_infections_getD {σ : Type} (g : RandomStream σ) (nodes : List Node)
    (neighbors : List (List Nat)) (s : σ) (i : Nat) :
    (update_infections g nodes neighbors s).1.getD i default =
      if i ∈ (scan_infected g nodes neighbors 0 nodes s).1 ∧ i < nodes.length then
        { nodes.getD i default with state := "infected" }
      else nodes.getD i default := by
  simp only [update_infections]
  rw [mark_infected_getD]
  simp only [Nat.zero_add]

/-- C1 (amended): a single update_infections call changes a node only by
setting its state to "infected", and only at positions whose tick-start
state was not "infected" and which occur in the neighbor list of some node
that was "infected" at the start of the call.  Because the infecting node j
must be infected in the tick-start list, infections discovered during the
call never enable further infections within the same call; in particular a
node two hops from every tick-start-infected node is never infected.  The
original claim's restriction of the source state to "secure" is what fails:
the code only tests target.state == "infected", so the reserved
"vulnerable" state is infectable as well (see the counterexample). -/
theorem update_infections_new_infections_from_tick_start_infected
    {σ : Type} (g : RandomStream σ) (hg : SampleSubset g) (nodes : List Node)
    (neighbors : List (List Nat)) (s : σ) (i : Nat) :
    (update_infections g nodes neighbors s).1.getD i default = nodes.getD i default ∨
      ((nodes.getD i default).state ≠ "infected" ∧
        (update_infections g nodes neighbors s).1.getD i default =
          { nodes.getD i default with state := "infected" } ∧
        ∃ j, j < nodes.length ∧ (nodes.getD j default).state = "infected" ∧
          i ∈ neighbors.getD j []) := by
  rw [update_infections_getD]
  by_cases hmem : i ∈ (scan_infected g nodes neighbors 0 nodes s).1 ∧ i < nodes.length
  · right
    have hs := scan_infected_mem hg nodes neighbors nodes 0 s (by intro k; simp) i hmem.1
    exact ⟨hs.1, by rw [if_pos hmem], hs.2⟩
  · left
    rw [if_neg hmem]

/-- Concrete deterministic generator over state Nat used by witnesses and
counterexamples: sample takes the first k elements, random always draws 0,
uniform returns the lower bound, randrange returns 0. -/
def g0 : RandomStream Nat :=
  ⟨fun s l k => (l.take k, s + 1), fun s => (0, s + 1),
   fun s a _ => (a, s + 1), fun s _ => (0, s + 1)⟩

lemma g0_sample_subset : SampleSubset g0 := by
  intro s l k x hx
  exact List.take_subset k l hx

/-- Two-node list at identical coordinates: node 0 infected, node 1 in the
reserved "vulnerable" state. -/
def vulnerable_pair : List Node :=
  [sample_phone_node, sample_vulnerable_node]

/-- Symmetric neighbor structure connecting the two nodes of
vulnerable_pair. -/
def pair_neighbors : List (List Nat) :=
  [[1], [0]]

lemma hypot_pair_zero :
    hypot (sample_phone_node.x - sample_vulnerable_node.x)
      (sample_phone_node.y - sample_vulnerable_node.y) = 0 := by
  simp [hypot, sample_phone_node, sample_vulnerable_node]

lemma chance_pair :
    infection_probability sample_phone_node sample_vulnerable_node 0 = 0.57 := by
  rw [infection_probability_eq]
  unfold infection_probability_uncapped category_base
  norm_num [sample_phone_node, sample_vulnerable_node, CONNECTION_RADIUS, max_def, min_def]

lemma scan_vulnerable_pair :
    (scan_infected g0 vulnerable_pair pair_neighbors 0 vulnerable_pair 0).1 = [1] := by
  simp only [vulnerable_pair, pair_neighbors, scan_infected, try_targets, g0,
    MAX_INFECTION_ATTEMPTS, List.getD_cons_zero, List.getD_cons_succ, List.length_cons,
    List.length_nil, List.take, hypot_pair_zero, chance_pair]
  norm_num [sample_phone_node, sample_vulnerable_node]
  simp

/-- C1 counterexample: running update_infections with the concrete
generator g0 on vulnerable_pair changes node 1, whose tick-start state is
"vulnerable" rather than "secure", to "infected" — the code only skips
targets whose state equals "infected", so a state change that is not from
"secure" occurs and the claim as stated is false at this input. -/
theorem update_infections_infects_vulnerable_node :
    (vulnerable_pair.getD 1 default).state = "vulnerable" ∧
    (vulnerable_pair.getD 1 default).state ≠ "secure" ∧
    (update_infections g0 vulnerable_pair pair_neighbors 0).1.getD 1 default ≠
      vulnerable_pair.getD 1 default ∧
    ((update_infections g0 vulnerable_pair pair_neighbors 0).1.getD 1 default).state =
      "infected" := by
  have hupd : (update_infections g0 vulnerable_pair pair_neighbors 0).1.getD 1 default =
      { vulnerable_pair.getD 1 default with state := "infected" } := by
    rw [update_infections_getD, if_pos]
    refine ⟨?_, ?_⟩
    · rw [scan_vulnerable_pair]
      simp
    · simp [vulnerable_pair]
  refine ⟨rfl, by simp [vulnerable_pair, sample_vulnerable_node], ?_, ?_⟩
  · rw [hupd]
    intro heq
    have hstate := congrArg Node.state heq
    simp [vulnerable_pair, sample_vulnerable_node] at hstate
  · rw [hupd]

theorem update_infections_new_infections_witness :
    SampleSubset g0 ∧
    ((update_infections g0 vulnerable_pair pair_neighbors 0).1.getD 1 default =
        vulnerable_pair.getD 1 default ∨
      ((vulnerable_pair.getD 1 default).state ≠ "infected" ∧
        (update_infections g0 vulnerable_pair pair_neighbors 0).1.getD 1 default =
          { vulnerable_pair.getD 1 default with state := "infected" } ∧
        ∃ j, j < vulnerable_pair.length ∧
          (vulnerable_pair.getD j default).state = "infected" ∧
          1 ∈ pair_neighbors.getD j [])) :=
  ⟨g0_sample_subset,
    update_infections_new_infections_from_tick_start_infected g0 g0_sample_subset
      vulnerable_pair pair_neighbors 0 1⟩

lemma update_infections_length {σ : Type} (g : RandomStream σ) (nodes : List Node)
    (neighbors : List (List Nat)) (s : σ) :
    (update_infections g nodes neighbors s).1.length = nodes.length := by
  simp only [update_infections]
  exact mark_infected_length _ _ _

lemma update_infections_infected_stays {σ : Type} (g : RandomStream σ) (nodes : List Node)
    (neighbors : List (List Nat)) (s : σ) (i : Nat)
    (h : (nodes.getD i default).state = "infected") :
    (((update_infections g nodes neighbors s).1.getD i default).state) = "infected" := by
  rw [update_infections_getD]
  by_cases hc : i ∈ (scan_infected g nodes neighbors 0 nodes s).1 ∧ i < nodes.length
  · rw [if_pos hc]
  · rw [if_neg hc]
    exact h

lemma run_ticks_add {σ : Type} (g : RandomStream σ) (neighbors : List (List Nat))
    (a b : Nat) (p : List Node × σ) :
    run_ticks g neighbors (a + b) p = run_ticks g neighbors b (run_ticks g neighbors a p) := by
  induction a generalizing p with
  | zero => simp [run_ticks]
  | succ a ih =>
    have harith : a + 1 + b = (a + b) + 1 := by omega
    rw [harith]
    show run_ticks g neighbors (a + b + 1) p = _
    simp only [run_ticks]
    exact ih _

/-- C3: across any finite sequence of update_infections calls (run_ticks),
a node whose state is "infected" after k calls is still "infected" after
every m ≥ k calls; no operation of the engine transitions a node out of
"infected". -/
theorem infected_state_monotone {σ : Type} (g : RandomStream σ)
    (neighbors : List (List Nat)) (nodes : List Node) (s : σ) (i k m : Nat)
    (hkm : k ≤ m)
    (hinf : (((run_ticks g neighbors k (nodes, s)).1).getD i default).state = "infected") :
    (((run_ticks g neighbors m (nodes, s)).1).getD i default).state = "infected" := by
  obtain ⟨b, rfl⟩ := Nat.exists_eq_add_of_le hkm
  rw [run_ticks_add]
  generalize hq : run_ticks g neighbors k (nodes, s) = q at *
  clear hq hkm
  induction b generalizing q with
  | zero => exact hinf
  | succ b ih =>
    show (((run_ticks g neighbors (b + 1) q).1).getD i default).state = "infected"
    simp only [run_ticks]
    exact ih _ (update_infections_infected_stays g q.1 neighbors q.2 i hinf)

theorem infected_state_monotone_witness :
    (0 : Nat) ≤ 1 ∧
    (((run_ticks g0 ([[]] : List (List Nat)) 0 ([sample_phone_node], 0)).1.getD 0
        default).state = "infected") ∧
    (((run_ticks g0 ([[]] : List (List Nat)) 1 ([sample_phone_node], 0)).1.getD 0
        default).state = "infected") :=
  ⟨Nat.zero_le 1, rfl,
    infected_state_monotone g0 [[]] [sample_phone_node] 0 0 0 1 (Nat.zero_le 1) rfl⟩

/-- C9: update_infections mutates at most the state field — for every node
list and neighbor structure, the output list has the same length (and hence
order: each position holds the node that was at that position before), and
at every position every field except possibly `state` is unchanged.  The
neighbor structure is an input the function never returns or rebuilds, so in
this functional embedding it is unchanged by construction. -/
theorem update_infections_frame {σ : Type} (g : RandomStream σ) (nodes : List Node)
    (neighbors : List (List Nat)) (s : σ) :
    (update_infections g nodes neighbors s).1.length = nodes.length ∧
    ∀ i,
      ((update_infections g nodes neighbors s).1.getD i default).id =
          (nodes.getD i default).id ∧
      ((update_infections g nodes neighbors s).1.getD i default).x =
          (nodes.getD i default).x ∧
      ((update_infections g nodes neighbors s).1.getD i default).y =
          (nodes.getD i default).y ∧
      ((update_infections g nodes neighbors s).1.getD i default).latitude =
          (nodes.getD i default).latitude ∧
      ((update_infections g nodes neighbors s).1.getD i default).longitude =
          (nodes.getD i default).longitude ∧
      ((update_infections g nodes neighbors s).1.getD i default).region =
          (nodes.getD i default).region ∧
      ((update_infections g nodes neighbors s).1.getD i default).location =
          (nodes.getD i default).location ∧
      ((update_infections g nodes neighbors s).1.getD i default).device_type =
          (nodes.getD i default).device_type ∧
      ((update_infections g nodes neighbors s).1.getD i default).connectivity =
          (nodes.getD i default).connectivity ∧
      ((update_infections g nodes neighbors s).1.getD i default).label =
          (nodes.getD i default).label ∧
      ((update_infections g nodes neighbors s).1.getD i default).summary =
          (nodes.getD i default).summary := by
  refine ⟨update_infections_length g nodes neighbors s, ?_⟩
  intro i
  rw [update_infections_getD]
  by_cases hc : i ∈ (scan_infected g nodes neighbors 0 nodes s).1 ∧ i < nodes.length
  · rw [if_pos hc]
    exact ⟨rfl, rfl, rfl, rfl, rfl, rfl, rfl, rfl, rfl, rfl, rfl⟩
  · rw [if_neg hc]
    exact ⟨rfl, rfl, rfl, rfl, rfl, rfl, rfl, rfl, rfl, rfl, rfl⟩

/-- One append of Python list mutation `neighbor_lists[i].append(v)`
(src/main.py lines 550-551): out-of-range writes are impossible in the
verified use because connection indices are below node_count. -/
def add_neighbor (lists : List (List Nat)) (i v : Nat) : List (List Nat) :=
  lists.set i (lists.getD i [] ++ [v])

/-- build_neighbor_lists_from_connections (src/main.py lines 545-554):
start from node_count empty lists, insert every connection symmetrically
(target into the source's list, then source into the target's list), then
replace each list by sorted(set(...)), rendered as sorting the
deduplicating Finset of its members. -/
def build_neighbor_lists_from_connections (node_count : Nat)
    (connections : List Connection) : List (List Nat) :=
  let filled := connections.foldl
    (fun acc c => add_neighbor (add_neighbor acc c.source c.target) c.target c.source)
    (List.replicate node_count ([] : List Nat))
  filled.map (fun l => l.toFinset.sort (· ≤ ·))

lemma add_neighbor_length (lists : List (List Nat)) (i v : Nat) :
    (add_neighbor lists i v).length = lists.length :=
  List.length_set lists i _

lemma mem_add_neighbor (lists : List (List Nat)) (i v x j : Nat) :
    x ∈ (add_neighbor lists i v).getD j [] ↔
      x ∈ lists.getD j [] ∨ (j = i ∧ i < lists.length ∧ x = v) := by
  unfold add_neighbor
  rw [List.getD_eq_getElem?_getD, List.getElem?_set]
  by_cases hij : i = j
  · subst hij
    by_cases hlt : i < lists.length
    · rw [if_pos rfl, if_pos hlt]
      rw [List.getD_eq_getElem?_getD]
      simp [List.mem_append]
      tauto
    · rw [if_pos rfl, if_neg hlt]
      have hnone : lists[i]? = none := List.getElem?_eq_none (by omega)
      simp [List.getD_eq_getElem?_getD, hnone, hlt]
  · rw [if_neg hij]
    rw [← List.getD_eq_getElem?_getD]
    have : ¬(j = i) := fun h => hij h.symm
    simp [this]

lemma foldl_add_neighbor_length (cs : List Connection) :
    ∀ (acc : List (List Nat)),
      (cs.foldl
        (fun acc c => add_neighbor (add_neighbor acc c.source c.target) c.target c.source)
        acc).length = acc.length := by
  induction cs with
  | nil => intro acc; rfl
  | cons c cs ih =>
    intro acc
    simp only [List.foldl_cons]
    rw [ih, add_neighbor_length, add_neighbor_length]

lemma mem_foldl_add_neighbor (cs : List Connection) :
    ∀ (acc : List (List Nat)),
      (∀ c ∈ cs, c.source < acc.length ∧ c.target < acc.length) →
      ∀ (x j : Nat),
        (x ∈ (cs.foldl
            (fun acc c => add_neighbor (add_neighbor acc c.source c.target) c.target c.source)
            acc).getD j [] ↔
          x ∈ acc.getD j [] ∨
            ∃ c ∈ cs, (c.source = j ∧ c.target = x) ∨ (c.target = j ∧ c.source = x)) := by
  induction cs with
  | nil => intro acc _ x j; simp
  | cons c cs ih =>
    intro acc hlen x j
    simp only [List.foldl_cons]
    have hc := hlen c (List.mem_cons_self c cs)
    have hlen2 : (add_neighbor (add_neighbor acc c.source c.target) c.target c.source).length =
        acc.length := by
      rw [add_neighbor_length, add_neighbor_length]
    have hlen' : ∀ c' ∈ cs,
        c'.source < (add_neighbor (add_neighbor acc c.source c.target) c.target c.source).length ∧
        c'.target < (add_neighbor (add_neighbor acc c.source c.target) c.target c.source).length := by
      intro c' hc'
      rw [hlen2]
      exact hlen c' (List.mem_cons_of_mem c hc')
    rw [ih _ hlen' x j, mem_add_neighbor, mem_add_neighbor]
    rw [add_neighbor_length]
    have h1 : c.source < acc.length := hc.1
    have h2 : c.target < acc.length := hc.2
    constructor
    · intro h
      aesop
    · intro h
      aesop

lemma getD_map_sort (l : List (List Nat)) (j : Nat) :
    (l.map (fun li => li.toFinset.sort (· ≤ ·))).getD j [] =
      (l.getD j []).toFinset.sort (· ≤ ·) := by
  rw [List.getD_eq_getElem?_getD, List.getD_eq_getElem?_getD, List.getElem?_map]
  cases h : l[j]? with
  | none => simp
  | some a => simp

lemma build_neighbor_length (node_count : Nat) (connections : List Connection) :
    (build_neighbor_lists_from_connections node_count connections).length = node_count := by
  unfold build_neighbor_lists_from_connections
  rw [List.length_map, foldl_add_neighbor_length, List.length_replicate]

lemma mem_build_neighbor (node_count : Nat) (connections : List Connection)
    (hconn : ∀ c ∈ connections, c.source < node_count ∧ c.target < node_count)
    (x j : Nat) :
    x ∈ (build_neighbor_lists_from_connections node_count connections).getD j [] ↔
      ∃ c ∈ connections, (c.source = j ∧ c.target = x) ∨ (c.target = j ∧ c.source = x) := by
  unfold build_neighbor_lists_from_connections
  rw [getD_map_sort, Finset.mem_sort, List.mem_toFinset]
  rw [mem_foldl_add_neighbor connections (List.replicate node_count ([] : List Nat))
        (by simpa using hconn) x j]
  have hrep : (List.replicate node_count ([] : List Nat)).getD j [] = [] := by
    rw [List.getD_eq_getElem?_getD, List.getElem?_replicate]
    by_cases h : j < node_count <;> simp [h]
  rw [hrep]
  simp

lemma build_neighbor_sorted (node_count : Nat) (connections : List Connection) (j : Nat) :
    List.Sorted (· < ·)
      ((build_neighbor_lists_from_connections node_count connections).getD j []) := by
  unfold build_neighbor_lists_from_connections
  rw [getD_map_sort]
  exact Finset.sort_sorted_lt _

/-- C5: for every node_count and every connection list whose endpoint
indices lie below node_count, build_neighbor_lists_from_connections
returns node_count lists; each is strictly ascending (hence
duplicate-free); membership is symmetric; and j appears in list i exactly
when some connection joins i and j in either direction. -/
theorem build_neighbor_lists_spec (node_count : Nat) (connections : List Connection)
    (hconn : ∀ c ∈ connections, c.source < node_count ∧ c.target < node_count) :
    (build_neighbor_lists_from_connections node_count connections).length = node_count ∧
    (∀ j, List.Sorted (· < ·)
        ((build_neighbor_lists_from_connections node_count connections).getD j []) ∧
      ((build_neighbor_lists_from_connections node_count connections).getD j []).Nodup) ∧
    (∀ i j, j ∈ (build_neighbor_lists_from_connections node_count connections).getD i [] ↔
        i ∈ (build_neighbor_lists_from_connections node_count connections).getD j []) ∧
    (∀ i j, j ∈ (build_neighbor_lists_from_connections node_count connections).getD i [] ↔
        ∃ c ∈ connections,
          (c.source = i ∧ c.target = j) ∨ (c.target = i ∧ c.source = j)) := by
  refine ⟨build_neighbor_length node_count connections, ?_, ?_, ?_⟩
  · intro j
    have hs := build_neighbor_sorted node_count connections j
    exact ⟨hs, hs.nodup⟩
  · intro i j
    rw [mem_build_neighbor node_count connections hconn j i,
      mem_build_neighbor node_count connections hconn i j]
    constructor
    · rintro ⟨c, hcmem, ⟨h1, h2⟩ | ⟨h1, h2⟩⟩
      · exact ⟨c, hcmem, Or.inr ⟨h2, h1⟩⟩
      · exact ⟨c, hcmem, Or.inl ⟨h2, h1⟩⟩
    · rintro ⟨c, hcmem, ⟨h1, h2⟩ | ⟨h1, h2⟩⟩
      · exact ⟨c, hcmem, Or.inr ⟨h2, h1⟩⟩
      · exact ⟨c, hcmem, Or.inl ⟨h2, h1⟩⟩
  · intro i j
    exact mem_build_neighbor node_count connections hconn j i

theorem build_neighbor_lists_spec_witness :
    (∀ c ∈ [(⟨0, 1, "LAN", "link"⟩ : Connection)], c.source < 3 ∧ c.target < 3) ∧
    (build_neighbor_lists_from_connections 3 [(⟨0, 1, "LAN", "link"⟩ : Connection)]).length = 3 ∧
    (1 ∈ (build_neighbor_lists_from_connections 3
        [(⟨0, 1, "LAN", "link"⟩ : Connection)]).getD 0 [] ↔
      0 ∈ (build_neighbor_lists_from_connections 3
        [(⟨0, 1, "LAN", "link"⟩ : Connection)]).getD 1 []) :=
  ⟨by simp, (build_neighbor_lists_spec 3 [⟨0, 1, "LAN", "link"⟩] (by simp)).1,
    ((build_neighbor_lists_spec 3 [⟨0, 1, "LAN", "link"⟩] (by simp)).2.2.1 0 1)⟩

/-- point_in_polygon ray-casting test (src/main.py lines 429-444, the
function named with a leading underscore there): walks the polygon edges
with wraparound and toggles the inside flag at each crossing. -/
def point_in_polygon (lon lat : ℚ) (polygon : List (ℚ × ℚ)) : Bool :=
  (List.range polygon.length).foldl
    (fun inside i =>
      let p1 := polygon.getD i (0, 0)
      let p2 := polygon.getD ((i + 1) % polygon.length) (0, 0)
      if decide (p1.2 > lat) = decide (p2.2 > lat) then inside
      else
        let denominator := p2.2 - p1.2
        if denominator = 0 then inside
        else
          let slope := (p2.1 - p1.1) / denominator
          let intersection_x := slope * (lat - p1.2) + p1.1
          if lon < intersection_x then !inside else inside)
    false

/-- is_on_land (src/main.py lines 447-451).  The LAND_POLYGONS table it
iterates over comes from the map_polygons module, which is not under src/,
so the polygon table is passed as a parameter here; everything else is the
source function verbatim. -/
def is_on_land (polygons : List (List (ℚ × ℚ))) (lon lat : ℚ) : Bool :=
  polygons.any (fun polygon => point_in_polygon lon lat polygon)

/-- Python str.title as applied to the single-word device type names in the
summary f-string of generate_nodes (src/main.py line 506). -/
def title (sv : String) : String :=
  sv.capitalize

/-- Bounded jitter retry loop of generate_nodes (src/main.py lines
486-495): up to 40 times, draw a jittered latitude then a jittered
longitude with rng.uniform and accept the first candidate the land
predicate approves.  Returns the accepted (lat, lon) pair, if any, with
the advanced generator state; each iteration consumes exactly two uniform
draws, accepted or not, matching the Python draw order. -/
def jitter_attempts {σ : Type} (g : RandomStream σ) (spec : ScenarioNodeSpec)
    (is_land : ℚ → ℚ → Bool) : Nat → σ → Option (ℚ × ℚ) × σ
  | 0, s => (none, s)
  | n + 1, s =>
    let jlat := g.uniform s (spec.latitude - spec.lat_jitter) (spec.latitude + spec.lat_jitter)
    let jlon := g.uniform jlat.2 (spec.longitude - spec.lon_jitter)
      (spec.longitude + spec.lon_jitter)
    if is_land jlon.1 jlat.1 then (some (jlat.1, jlon.1), jlon.2)
    else jitter_attempts g spec is_land n jlon.2

/-- Fallback resolution after the jitter loop (the for-else of src/main.py
lines 486-502): an accepted candidate is used as is; otherwise the
unjittered anchor coordinates are kept and the degradation print fires
only when the anchor also fails both the supplied land predicate and the
polygon test is_on_land.  The returned string list holds the printed log
lines. -/
def resolve_position (spec : ScenarioNodeSpec) (is_land : ℚ → ℚ → Bool)
    (polygons : List (List (ℚ × ℚ))) (found : Option (ℚ × ℚ)) :
    ℚ × ℚ × List String :=
  match found with
  | some (jlat, jlon) => (jlat, jlon, [])
  | none =>
    if !(is_land spec.longitude spec.latitude)
        && !(is_on_land polygons spec.longitude spec.latitude) then
      (spec.latitude, spec.longitude,
        ["Could not verify land for " ++ spec.label ++ ", forcing placement."])
    else
      (spec.latitude, spec.longitude, [])

/-- Body of the per-spec iteration of generate_nodes (src/main.py lines
483-526): run the jitter loop, resolve the position, project it to screen
coordinates and build the Node record with the sequential id `idx` and the
summary string of the source f-string. -/
def place_spec {σ : Type} (g : RandomStream σ) (projection : Projection)
    (is_land : ℚ → ℚ → Bool) (polygons : List (List (ℚ × ℚ))) (idx : Nat)
    (spec : ScenarioNodeSpec) (s : σ) : Node × List String × σ :=
  let attempt := jitter_attempts g spec is_land 40 s
  let resolved := resolve_position spec is_land polygons attempt.1
  let screen := projection.to_screen resolved.2.1 resolved.1
  let summary := "Type: " ++ title spec.device_type ++ "\nLocation: " ++ spec.location ++
    ", " ++ spec.region ++ "\nConnectivity: " ++ String.intercalate ", " spec.connectivity ++
    "\nRole: " ++ spec.role
  (⟨idx, screen.1, screen.2, resolved.1, resolved.2.1, spec.region, spec.location,
    spec.device_type, spec.connectivity, spec.label, summary, "secure"⟩,
   resolved.2.2, attempt.2)

/-- Sequential placement of all specs (the enumerate loop of src/main.py
line 483), threading the generator state and accumulating log lines. -/
def place_specs {σ : Type} (g : RandomStream σ) (projection : Projection)
    (is_land : ℚ → ℚ → Bool) (polygons : List (List (ℚ × ℚ))) :
    Nat → List ScenarioNodeSpec → σ → List Node × List String × σ
  | _, [], s => ([], [], s)
  | idx, spec :: rest, s =>
    let placed := place_spec g projection is_land polygons idx spec s
    let remaining := place_specs g projection is_land polygons (idx + 1) rest placed.2.2
    (placed.1 :: remaining.1, placed.2.1 ++ remaining.2.1, remaining.2.2)

/-- generate_nodes parametrized by the spec table and configured node count
(src/main.py lines 473-528): the count check of lines 476-480 raises before
any node is built, rendered as an Except.error carrying the source message;
otherwise every spec is placed in order. -/
def generate_nodes_core {σ : Type} (g : RandomStream σ) (specs : List ScenarioNodeSpec)
    (node_count : Nat) (projection : Projection) (is_land : ℚ → ℚ → Bool)
    (polygons : List (List (ℚ × ℚ))) (s : σ) :
    Except String (List Node × List String × σ) :=
  if specs.length ≠ node_count then
    Except.error ("Scenario configuration mismatch: expected " ++ toString node_count ++
      " nodes but described " ++ toString specs.length)
  else
    Except.ok (place_specs g projection is_land polygons 0 specs s)

/-- SCENARIO_NODE_SPECS table (src/main.py lines 72-193). -/
def SCENARIO_NODE_SPECS : List ScenarioNodeSpec :=
  [⟨"Madrid Civic Phones", "phone", 40.4168, -3.7038, "Spain", "Madrid",
      "Commuters checking transit updates through the municipal network.",
      ["Municipal Wi-Fi", "LTE", "Bluetooth"], 0.25, 0.35⟩,
   ⟨"Barcelona Smart Home Hub", "iot", 41.3874, 2.1686, "Spain", "Barcelona",
      "Controls apartment climate sensors and lighting automations.",
      ["Fiber Uplink", "Zigbee", "Wi-Fi"], 0.25, 0.35⟩,
   ⟨"Valencia Remote Offices", "computer", 39.4699, -0.3763, "Spain", "Valencia",
      "Analysts tunneling into headquarters through managed VPN desks.",
      ["Enterprise Wi-Fi", "Ethernet", "VPN Client"], 0.25, 0.35⟩,
   ⟨"Seville Hospital IoT", "iot", 37.3891, -5.9845, "Spain", "Seville",
      "Monitors critical care vitals from connected medical devices.",
      ["Secured Wi-Fi", "Bluetooth", "Zigbee"], 0.25, 0.35⟩,
   ⟨"Bilbao Esports PCs", "computer", 43.2630, -2.9350, "Spain", "Bilbao",
      "High-end rigs scrimming via low-latency competitive ladders.",
      ["Fiber LAN", "Wi-Fi 6", "Bluetooth"], 0.25, 0.35⟩,
   ⟨"Lisbon Regional Data Center", "server", 38.7223, -9.1393, "Portugal", "Lisbon",
      "Hosts SaaS workloads for Iberian customers with redundancy.",
      ["Fiber Backbone", "VPN Gateway", "SSH"], 0.25, 0.35⟩,
   ⟨"Frankfurt VPN Gateway", "server", 50.1109, 8.6821, "Germany", "Frankfurt",
      "Aggregates secure tunnels for European enterprise tenants.",
      ["MPLS Backbone", "VPN Concentrator", "SSH"], 0.3, 0.3⟩,
   ⟨"Dublin CDN Relay", "server", 53.3498, -6.2603, "Ireland", "Dublin",
      "Caches media assets before distributing to Atlantic audiences.",
      ["Peered Fiber", "HTTPS", "SSH"], 0.3, 0.3⟩,
   ⟨"New York Trading Desk", "computer", 40.7128, -74.0060, "United States",
      "New York City", "Risk models syncing with European exchanges pre-market.",
      ["Private Fiber", "VPN Client", "SSH"], 0.3, 0.3⟩,
   ⟨"Tokyo Streaming Cluster", "server", 35.6762, 139.6503, "Japan", "Tokyo",
      "Origin streaming nodes serving Asia-Pacific subscribers.",
      ["Transpacific Fiber", "HTTPS", "SSH"], 0.3, 0.3⟩]

/-- SCENARIO_CONNECTION_SPECS table (src/main.py lines 196-287). -/
def SCENARIO_CONNECTION_SPECS : List ScenarioConnectionSpec :=
  [⟨0, 1, "Municipal Wi-Fi Mesh",
      "Madrid transit handsets join the Barcelona smart-home mesh when riders visit family."⟩,
   ⟨0, 2, "VPN App",
      "Phones pivot through the Valencia remote work gateway during after-hours check-ins."⟩,
   ⟨1, 3, "Secure Zigbee Bridge",
      "Hospital sensors receive environment updates from Barcelona apartment automation experts."⟩,
   ⟨1, 5, "HTTPS Telemetry",
      "Smart home dashboards forward anonymized metrics into Lisbon\x27s SaaS analytics stack."⟩,
   ⟨2, 5, "Enterprise Fiber",
      "Valencia analysts push daily reports into the Lisbon data center\x27s staging clusters."⟩,
   ⟨2, 6, "Managed VPN",
      "Remote employees rely on Frankfurt\x27s hardened concentrator for privileged access."⟩,
   ⟨3, 4, "Arena LAN",
      "Regional esports scrims share match telemetry between Seville and Bilbao arenas."⟩,
   ⟨3, 5, "Clinical Sync",
      "Seville\x27s hospital charts replicate nightly into Lisbon\x27s redundant data stores."⟩,
   ⟨4, 5, "Low-Latency Fiber",
      "Bilbao gaming rigs warm their caches from Lisbon to reduce tournament lag."⟩,
   ⟨5, 6, "EU Backbone Peering",
      "Lisbon and Frankfurt exchange telemetry to balance demand across EU tenants."⟩,
   ⟨5, 7, "Content Distribution",
      "Lisbon\x27s cache preloads media to Dublin before North American prime-time."⟩,
   ⟨6, 8, "Risk Tunnel",
      "Frankfurt analytics feed New York trading desks ahead of opening bells."⟩,
   ⟨6, 9, "Threat Intel Share",
      "Frankfurt relays credential stuffing indicators directly to Tokyo\x27s SOC cluster."⟩,
   ⟨7, 8, "CDN Bridge",
      "Dublin mirrors highlight videos into Manhattan for overnight streaming bursts."⟩,
   ⟨8, 9, "Peered VPN",
      "New York and Tokyo coordinate DRM keys for simultaneous content launches."⟩]

/-- generate_nodes as the source has it (src/main.py lines 473-528): the
parametrized core applied to the module tables SCENARIO_NODE_SPECS and
NODE_COUNT. -/
def generate_nodes {σ : Type} (g : RandomStream σ) (s : σ) (projection : Projection)
    (is_land : ℚ → ℚ → Bool) (polygons : List (List (ℚ × ℚ))) :
    Except String (List Node × List String × σ) :=
  generate_nodes_core g SCENARIO_NODE_SPECS NODE_COUNT projection is_land polygons s

/-- build_connections (src/main.py lines 531-542). -/
def build_connections : List Connection :=
  SCENARIO_CONNECTION_SPECS.map
    (fun spec => ⟨spec.source, spec.target, spec.medium, spec.description⟩)

/-- One full run as main() performs it (src/main.py lines 923-994):
generate the nodes from the seeded generator, build the static connection
list and its neighbor structure, infect the patient zero drawn with
rng.randrange, then run the requested number of update_infections ticks.
Returns the final node list (or the configuration-mismatch error). -/
def simulate {σ : Type} (g : RandomStream σ) (s : σ) (projection : Projection)
    (is_land : ℚ → ℚ → Bool) (polygons : List (List (ℚ × ℚ))) (ticks : Nat) :
    Except String (List Node) :=
  match generate_nodes g s projection is_land polygons with
  | Except.error e => Except.error e
  | Except.ok (nodes, _logs, s1) =>
    let connections := build_connections
    let neighbors := build_neighbor_lists_from_connections nodes.length connections
    let pz := g.randrange s1 nodes.length
    let infected_nodes := mark_infected [pz.1] 0 nodes
    Except.ok (run_ticks g neighbors ticks (infected_nodes, pz.2)).1

lemma place_specs_ids {σ : Type} (g : RandomStream σ) (projection : Projection)
    (is_land : ℚ → ℚ → Bool) (polygons : List (List (ℚ × ℚ))) :
    ∀ (specs : List ScenarioNodeSpec) (idx : Nat) (s : σ),
      (place_specs g projection is_land polygons idx specs s).1.map Node.id =
        List.range' idx specs.length := by
  intro specs
  induction specs with
  | nil => intro idx s; rfl
  | cons spec rest ih =>
    intro idx s
    simp only [place_specs, List.map_cons, List.length_cons, List.range'_succ]
    congr 1
    exact ih (idx + 1) _

/-- C7: generate_nodes (parametrized by its configuration) returns an error
exactly when the number of scenario node specifications differs from the
configured node count; the error carries no partially built node list (the
Except.error constructor holds only the message, so no node is ever
constructed on that path); and on a match it returns exactly node_count
nodes whose ids are 0..node_count-1 assigned sequentially in specification
order. -/
theorem generate_nodes_count_check {σ : Type} (g : RandomStream σ) (s : σ)
    (specs : List ScenarioNodeSpec) (node_count : Nat) (projection : Projection)
    (is_land : ℚ → ℚ → Bool) (polygons : List (List (ℚ × ℚ))) :
    ((∃ e, generate_nodes_core g specs node_count projection is_land polygons s =
        Except.error e) ↔ specs.length ≠ node_count) ∧
    ∀ nodes logs s1,
      generate_nodes_core g specs node_count projection is_land polygons s =
        Except.ok (nodes, logs, s1) →
      nodes.length = node_count ∧ nodes.map Node.id = List.range node_count := by
  unfold generate_nodes_core
  by_cases h : specs.length = node_count
  · rw [if_neg (not_not_intro h)]
    constructor
    · constructor
      · rintro ⟨e, he⟩
        cases he
      · intro hne
        exact absurd h hne
    · intro nodes logs s1 hok
      have hins : place_specs g projection is_land polygons 0 specs s = (nodes, logs, s1) :=
        Except.ok.inj hok
      have hnodes : nodes = (place_specs g projection is_land polygons 0 specs s).1 := by
        rw [hins]
      have hids : nodes.map Node.id = List.range' 0 specs.length := by
        rw [hnodes]
        exact place_specs_ids g projection is_land polygons specs 0 s
      constructor
      · have hlen := congrArg List.length hids
        rw [List.length_map, List.length_range'] at hlen
        omega
      · rw [hids, ← h, List.range_eq_range']
  · rw [if_pos h]
    constructor
    · exact ⟨fun _ => h, fun _ => ⟨_, rfl⟩⟩
    · intro nodes logs s1 hok
      cases hok

theorem generate_nodes_count_check_witness :
    ((∃ e, generate_nodes_core g0 SCENARIO_NODE_SPECS NODE_COUNT
        ⟨360, 180, 1, 0, 0⟩ (fun _ _ => true) [] 0 = Except.error e) ↔
      SCENARIO_NODE_SPECS.length ≠ NODE_COUNT) ∧
    ∀ nodes logs s1,
      generate_nodes_core g0 SCENARIO_NODE_SPECS NODE_COUNT
          ⟨360, 180, 1, 0, 0⟩ (fun _ _ => true) [] 0 =
        Except.ok (nodes, logs, s1) →
      nodes.length = NODE_COUNT ∧ nodes.map Node.id = List.range NODE_COUNT :=
  generate_nodes_count_check g0 0 SCENARIO_NODE_SPECS NODE_COUNT
    ⟨360, 180, 1, 0, 0⟩ (fun _ _ => true) []

/-- C8 (amended): when none of the 40 jittered candidates for a scenario
spec satisfies the land predicate, generate_nodes still succeeds and places
the node at the unjittered anchor coordinates (spec.latitude,
spec.longitude); the degradation log line is emitted exactly when, in
addition, the anchor itself fails both the supplied land predicate and the
polygon test is_on_land — a silent fallback otherwise, which is what the
counterexample exhibits against the original claim. -/
theorem generate_nodes_fallback_anchor {σ : Type} (g : RandomStream σ) (s : σ)
    (spec : ScenarioNodeSpec) (projection : Projection) (is_land : ℚ → ℚ → Bool)
    (polygons : List (List (ℚ × ℚ)))
    (hfail : (jitter_attempts g spec is_land 40 s).1 = none) :
    ∃ node logs s1,
      generate_nodes_core g [spec] 1 projection is_land polygons s =
        Except.ok ([node], logs, s1) ∧
      node.latitude = spec.latitude ∧ node.longitude = spec.longitude ∧
      (logs = ["Could not verify land for " ++ spec.label ++ ", forcing placement."] ↔
        (is_land spec.longitude spec.latitude = false ∧
          is_on_land polygons spec.longitude spec.latitude = false)) ∧
      (logs = [] ↔ (is_land spec.longitude spec.latitude = true ∨
        is_on_land polygons spec.longitude spec.latitude = true)) := by
  simp only [generate_nodes_core, List.length_cons, List.length_nil, place_specs, place_spec,
    hfail, resolve_position]
  cases hland : is_land spec.longitude spec.latitude <;>
    cases honland : is_on_land polygons spec.longitude spec.latitude
  · simp only [hland, honland]
    simp
    exact ⟨_, _, ⟨rfl, rfl⟩, rfl, rfl, rfl, by simp⟩
  · simp only [hland, honland]
    simp
    exact ⟨_, [], ⟨rfl, rfl⟩, rfl, rfl, by simp, rfl⟩
  · simp only [hland, honland]
    simp
    exact ⟨_, [], ⟨rfl, rfl⟩, rfl, rfl, by simp, rfl⟩
  · simp only [hland, honland]
    simp
    exact ⟨_, [], ⟨rfl, rfl⟩, rfl, rfl, by simp, rfl⟩

/-- Concrete scenario spec anchored at (latitude 0, longitude 0) with
jitter bounds 1, used by the C8 counterexample and witness. -/
def anchor_spec : ScenarioNodeSpec :=
  ⟨"Anchor", "phone", 0, 0, "Region", "Location", "role", [], 1, 1⟩

/-- Land predicate accepting exactly the anchor point (0, 0): every
jittered candidate drawn by g0 (which returns the interval lower bound)
fails it, while the anchor itself passes. -/
def anchor_land (lon lat : ℚ) : Bool :=
  decide (lon = 0 ∧ lat = 0)

/-- Land predicate rejecting every point. -/
def no_land (_lon _lat : ℚ) : Bool :=
  false

lemma anchor_attempts_fail : ∀ (n s : Nat),
    (jitter_attempts g0 anchor_spec anchor_land n s).1 = none := by
  intro n
  induction n with
  | zero => intro s; rfl
  | succ n ih =>
    intro s
    have hland : anchor_land ((0 : ℚ) - 1) ((0 : ℚ) - 1) = false := by
      simp [anchor_land]
    simp only [jitter_attempts, g0, anchor_spec, hland]
    simp only [Bool.false_eq_true, if_false]
    exact ih _

lemma no_land_attempts_fail (spec : ScenarioNodeSpec) : ∀ (n s : Nat),
    (jitter_attempts g0 spec no_land n s).1 = none := by
  intro n
  induction n with
  | zero => intro s; rfl
  | succ n ih =>
    intro s
    simp only [jitter_attempts, g0, no_land]
    simp only [Bool.false_eq_true, if_false]
    exact ih _

/-- C8 counterexample: with generator g0 and land predicate anchor_land,
none of the 40 jittered candidates for anchor_spec is accepted (the jitter
loop returns none) and the node is placed at the unjittered anchor, yet
the run emits no log line at all — the anchor itself passes the land
predicate, so the degradation goes unflagged and the claim that it is
always observable via a log line is false at this input. -/
theorem generate_nodes_fallback_not_always_logged :
    (jitter_attempts g0 anchor_spec anchor_land 40 0).1 = none ∧
    ∃ node s1,
      generate_nodes_core g0 [anchor_spec] 1 ⟨360, 180, 1, 0, 0⟩ anchor_land [] 0 =
        Except.ok ([node], [], s1) ∧
      node.latitude = anchor_spec.latitude ∧ node.longitude = anchor_spec.longitude := by
  refine ⟨anchor_attempts_fail 40 0, ?_⟩
  simp only [generate_nodes_core, List.length_cons, List.length_nil, place_specs, place_spec]
  rw [anchor_attempts_fail 40 0]
  simp only [resolve_position]
  have hcond : (!(anchor_land anchor_spec.longitude anchor_spec.latitude) &&
      !(is_on_land [] anchor_spec.longitude anchor_spec.latitude)) = false := by
    simp [anchor_land, anchor_spec]
  rw [hcond]
  simp

theorem generate_nodes_fallback_anchor_witness :
    (jitter_attempts g0 anchor_spec no_land 40 0).1 = none ∧
    ∃ node logs s1,
      generate_nodes_core g0 [anchor_spec] 1 ⟨360, 180, 1, 0, 0⟩ no_land [] 0 =
        Except.ok ([node], logs, s1) ∧
      node.latitude = anchor_spec.latitude ∧ node.longitude = anchor_spec.longitude ∧
      (logs = ["Could not verify land for " ++ anchor_spec.label ++ ", forcing placement."] ↔
        (no_land anchor_spec.longitude anchor_spec.latitude = false ∧
          is_on_land [] anchor_spec.longitude anchor_spec.latitude = false)) ∧
      (logs = [] ↔ (no_land anchor_spec.longitude anchor_spec.latitude = true ∨
        is_on_land [] anchor_spec.longitude anchor_spec.latitude = true)) :=
  ⟨no_land_attempts_fail anchor_spec 40 0,
    generate_nodes_fallback_anchor g0 0 anchor_spec ⟨360, 180, 1, 0, 0⟩ no_land []
      (no_land_attempts_fail anchor_spec 40 0)⟩

/-- C4: two runs with the same generator, the same initial generator state
(the same seed), the same projection, land predicate, polygon table and
tick count produce the same final node list — in particular the same
per-node (state, position, category) vector.  The whole pipeline
(generate_nodes, build_connections, the patient-zero randrange draw, and
every update_infections tick) consumes randomness only through the
explicitly threaded RandomStream, so the run is a pure function of these
inputs. -/
theorem simulate_deterministic {σ : Type} (g1 g2 : RandomStream σ) (s1 s2 : σ)
    (p1 p2 : Projection) (land1 land2 : ℚ → ℚ → Bool)
    (polys1 polys2 : List (List (ℚ × ℚ))) (t1 t2 : Nat)
    (hg : g1 = g2) (hs : s1 = s2) (hp : p1 = p2) (hland : land1 = land2)
    (hpolys : polys1 = polys2) (ht : t1 = t2) :
    simulate g1 s1 p1 land1 polys1 t1 = simulate g2 s2 p2 land2 polys2 t2 ∧
    Except.map (fun nodes => nodes.map (fun n => (n.state, n.x, n.y, n.device_type)))
        (simulate g1 s1 p1 land1 polys1 t1) =
      Except.map (fun nodes => nodes.map (fun n => (n.state, n.x, n.y, n.device_type)))
        (simulate g2 s2 p2 land2 polys2 t2) := by
  subst hg
  subst hs
  subst hp
  subst hland
  subst hpolys
  subst ht
  exact ⟨rfl, rfl⟩

theorem simulate_deterministic_witness :
    simulate g0 0 ⟨360, 180, 1, 0, 0⟩ no_land [] 3 =
      simulate g0 0 ⟨360, 180, 1, 0, 0⟩ no_land [] 3 ∧
    Except.map (fun nodes => nodes.map (fun n => (n.state, n.x, n.y, n.device_type)))
        (simulate g0 0 ⟨360, 180, 1, 0, 0⟩ no_land [] 3) =
      Except.map (fun nodes => nodes.map (fun n => (n.state, n.x, n.y, n.device_type)))
        (simulate g0 0 ⟨360, 180, 1, 0, 0⟩ no_land [] 3) :=
  simulate_deterministic g0 g0 0 0 ⟨360, 180, 1, 0, 0⟩ ⟨360, 180, 1, 0, 0⟩
    no_land no_land [] [] 3 3 rfl rfl rfl rfl rfl rfl

theorem update_infections_frame_witness :
    (update_infections g0 vulnerable_pair pair_neighbors 0).1.length =
      vulnerable_pair.length :=
  (update_infections_frame g0 vulnerable_pair pair_neighbors 0).1
